import Mathlib

/-!
Verification of the day-rater server (CGWeb94/day-rater-server).

The repository contains three variants of the same Express server:
* `src/unnamed/part_000`  — single-tenant, no authentication ("basic variant");
* `src/server.js` lines 1-191  — multi-tenant, `getUserIdFromToken` helper whose
  thrown errors reach the generic 400 error handler ("v1 variant");
* `src/server.js` lines 192-423 — multi-tenant with an `authenticate` middleware
  returning 401, extra columns `iv`/`badge`/`color` and a `scoreToColor` mapper
  ("rich variant").

The embedding models JavaScript numbers that scores/limits pass through
(`Number(...)` coercion can yield NaN) as `JsNum`, the Postgres table as a list
of rows, and each HTTP handler as a pure function from request data and store
state to a response together with the new store state.
-/

set_option autoImplicit false

namespace DayRater

/-- The result of JavaScript `Number(...)` coercion: either NaN or a (finite)
numeric value, modelled as a rational.  (Infinities never arise from the
inputs the handlers coerce and are out of the model.) -/
inductive JsNum where
  | nan
  | num (q : ℚ)
deriving DecidableEq, Repr

/-- JavaScript `x || d` for a number `x`: NaN and 0 are falsy. -/
def jsOrNum (x : JsNum) (d : ℚ) : ℚ :=
  match x with
  | .nan => d
  | .num q => if q = 0 then d else q

/-- JavaScript `s || d` for an optional string (`parsed.color || ...`,
`parsed.iv || null`): `undefined` and the empty string are falsy. -/
def jsOrStr (s : Option String) (d : Option String) : Option String :=
  match s with
  | none => d
  | some v => if v = "" then d else some v

/-- JavaScript `Math.round` on a finite number: floor of `x + 1/2`. -/
def jround (q : ℚ) : ℤ :=
  Int.floor (q + (1 : ℚ) / 2)

/-- zod `isoDateSchema`: the regex `^\d{4}-\d{2}-\d{2}$`. -/
def isoDateOk (s : String) : Bool :=
  match s.data with
  | [a, b, c, d, h1, e, f, h2, g, h] =>
      [a, b, c, d, e, f, g, h].all Char.isDigit && h1 = '-' && h2 = '-'
  | _ => false

/-- zod `z.number().int().min(1).max(100)` applied to the result of
`Number(req.body.score)`.  zod rejects NaN for `z.number()`. -/
def scoreValid (n : JsNum) : Bool :=
  match n with
  | .nan => false
  | .num q => q.den = 1 && 1 ≤ q && q ≤ 100

/-- `scoreToColor` (rich variant, src/server.js lines 251-264) on a finite
numeric score: clamp to [0,100]; for `score <= 50` red is 255 and green grows
with `Math.round(255 * score/50)`; above 50 green is 255 and red falls with
`Math.round(255 * (1 - (score-50)/50))`; blue is always 0.
Returns the three channels `(r, g, b)`. -/
def scoreToColor (score : ℚ) : ℤ × ℤ × ℤ :=
  let s := max 0 (min 100 score)
  if s ≤ 50 then
    (255, jround (255 * (s / 50)), 0)
  else
    (jround (255 * (1 - (s - 50) / 50)), 255, 0)

/-- The template string `rgb(r,g,b)` built by `scoreToColor`. -/
def renderRgb (c : ℤ × ℤ × ℤ) : String :=
  "rgb(" ++ toString c.1 ++ "," ++ toString c.2.1 ++ "," ++ toString c.2.2 ++ ")"

/-- `scoreToColor` applied to a `Number(...)` result.  On NaN every comparison
is false, so the else branch runs and `Math.round(NaN)` renders as `NaN`
(this value is only ever produced on a path that validation then rejects). -/
def scoreToColorJs (n : JsNum) : String :=
  match n with
  | .nan => "rgb(NaN,255,0)"
  | .num q => renderRgb (scoreToColor q)

/-- A row of the `entries` table in the rich variant.  `iv`, `badge`, `color`
are nullable columns. -/
structure Entry where
  id : ℤ
  user_id : String
  date : String
  score : ℤ
  text : String
  iv : Option String
  badge : Option String
  color : Option String
deriving DecidableEq, Repr

/-- The store: the `entries` table plus the SERIAL sequence for `id`. -/
structure DB where
  rows : List Entry
  nextId : ℤ
deriving DecidableEq, Repr

/-- An HTTP response as the handlers produce it: `ok` is a 200 with a JSON
body, `okEmpty` a 200 whose body is `undefined` (what `res.json(result.rows[0])`
sends when no row matched), `badReq` a 400 `{error: msg}` and `unauth` a
401 `{error: msg}`. -/
inductive Resp (α : Type) where
  | ok (a : α)
  | okEmpty
  | badReq (msg : String)
  | unauth (msg : String)
deriving DecidableEq, Repr

/-- The HTTP status code of a response. -/
def Resp.status {α : Type} : Resp α → Nat
  | .ok _ => 200
  | .okEmpty => 200
  | .badReq _ => 400
  | .unauth _ => 401

/-! ## Authentication

Both multi-tenant variants delegate token resolution to an external identity
service.  The service is modelled as a function `resolve : String → Option
String` from the token to the resolved user id (`none` when the service
rejects the token or the call fails). -/

/-- `authenticate` middleware (rich variant, src/server.js lines 267-284):
a falsy header (absent, or the empty string) is 401'd first; then the token
`header.split(" ")[1]` — undefined when there is no second component and
falsy when that component is the empty string, so `if (!token)` rejects both
before consulting the identity service; then a token the service rejects is
401'd; otherwise the resolved user id is attached. -/
def authenticate (resolve : String → Option String) (authHeader : Option String) :
    Except String String :=
  match authHeader with
  | none => .error "Authorization Header fehlt"
  | some h =>
      if h = "" then .error "Authorization Header fehlt"
      else
        match (h.splitOn " ").drop 1 with
        | [] => .error "Token fehlt"
        | token :: _ =>
            if token = "" then .error "Token fehlt"
            else
              match resolve token with
              | none => .error "Ungültiger Token"
              | some uid => .ok uid

/-- `getUserIdFromToken` (v1 variant, src/server.js lines 50-62): requires the
header to start with `Bearer `, then resolves `header.split(" ")[1]`.  Thrown
errors propagate to the route handler's `catch`, which forwards them to the
generic error handler. -/
def getUserIdFromToken (resolve : String → Option String) (authHeader : Option String) :
    Except String String :=
  match authHeader with
  | none => .error "Missing token"
  | some h =>
      if h.take 7 = "Bearer " then
        match (h.splitOn " ").drop 1 with
        | [] => .error "Missing token"
        | token :: _ =>
            match resolve token with
            | none => .error "Invalid token"
            | some uid => .ok uid
      else .error "Missing token"

/-! ## Rich-variant handlers (src/server.js lines 286-411)

Each handler is modelled after `authenticate` has succeeded, as a function of
the resolved `user_id`, the request data and the store; the endpoint wrappers
below compose them with `authenticate`.  Non-string JSON values in the string
fields would fail zod's type check; the model types those fields as
`Option String` (absent or a string), which covers all the behaviour the
claims exercise. -/

/-- Raw create body after the coercions done at the call of
`entrySchema.parse`: `score` has passed through `Number(...)`; the other
fields are taken as-is. -/
structure CreateBody where
  score : JsNum
  text : Option String
  iv : Option String
  badge : Option String
  color : Option String
  date : Option String
deriving DecidableEq, Repr

/-- The fields of a successful `entrySchema.parse` (rich variant,
src/server.js lines 235-242). -/
structure ParsedEntry where
  score : ℤ
  text : String
  iv : Option String
  badge : Option String
  color : Option String
  date : Option String
deriving DecidableEq, Repr

/-- zod `entrySchema.parse` (rich variant): score an integer in [1,100], text
at most 1000 chars defaulting to `""`, iv at most 32 chars, badge at most 50
chars, color any string, date matching the ISO regex when present. -/
def entrySchemaParse (b : CreateBody) : Except String ParsedEntry :=
  match b.score with
  | .nan => .error "score: invalid"
  | .num q =>
      if ¬ (q.den = 1 ∧ 1 ≤ q ∧ q ≤ 100) then .error "score: invalid"
      else
        let text := b.text.getD ""
        if ¬ text.length ≤ 1000 then .error "text: invalid"
        else if ¬ (∀ s ∈ b.iv, s.length ≤ 32) then .error "iv: invalid"
        else if ¬ (∀ s ∈ b.badge, s.length ≤ 50) then .error "badge: invalid"
        else if ¬ (∀ s ∈ b.date, isoDateOk s = true) then .error "date: invalid"
        else .ok { score := q.num, text := text, iv := b.iv, badge := b.badge,
                   color := b.color, date := b.date }

/-- POST /entries handler body (rich variant, src/server.js lines 289-313),
after authentication.  `today` is the value `todayLocalISODate()` would
compute.  A thrown zod error becomes a 400 via the error handler. -/
def createHandler (u : String) (today : String) (b : CreateBody) (db : DB) :
    Resp Entry × DB :=
  match entrySchemaParse b with
  | .error m => (.badReq m, db)
  | .ok p =>
      let date := (jsOrStr p.date (some today)).getD today
      let color := (jsOrStr p.color (some (scoreToColorJs (.num (p.score : ℚ))))).getD ""
      let row : Entry :=
        { id := db.nextId, user_id := u, date := date, score := p.score,
          text := p.text, iv := jsOrStr p.iv none, badge := jsOrStr p.badge none,
          color := some color }
      (.ok row, { rows := db.rows ++ [row], nextId := db.nextId + 1 })

/-- `ORDER BY date DESC, id DESC`: `a` comes no later than `b`.  Stored dates
are validated `YYYY-MM-DD` strings, on which lexicographic string order
coincides with the DATE order Postgres uses. -/
def entryBefore (a b : Entry) : Bool :=
  (b.date < a.date) || (a.date = b.date && b.id ≤ a.id)

/-- Insertion into a list sorted by `entryBefore`. -/
def insertSorted (e : Entry) : List Entry → List Entry
  | [] => [e]
  | x :: xs => if entryBefore e x then e :: x :: xs else x :: insertSorted e xs

/-- Sorting by `entryBefore` (the ORDER BY of the SELECT). -/
def sortEntries (l : List Entry) : List Entry :=
  l.foldr insertSorted []

/-- The WHERE clause of GET /entries: the user filter plus the optional
validated date bounds. -/
def listPred (u : String) (fromD toD : Option String) (e : Entry) : Bool :=
  e.user_id = u
    && (match fromD with | none => true | some f => f ≤ e.date)
    && (match toD with | none => true | some t => e.date ≤ t)

/-- `Math.min(Number(limit) || 365, 1000)` (src/server.js lines 326, 102;
src/unnamed/part_000 line 68).  `limit` is `none` when the query parameter is
absent (`Number(undefined)` is NaN, which `|| 365` replaces). -/
def computeLim (limit : Option JsNum) : ℚ :=
  min (jsOrNum (limit.getD .nan) 365) 1000

/-- The row count Postgres takes a numeric LIMIT to mean: the value cast to
bigint (rounding halves away from zero; the values reaching this model are
nonnegative, and a negative LIMIT, which Postgres rejects, is clamped to 0
here — no claim exercises it). -/
def limNat (q : ℚ) : Nat :=
  (jround q).toNat

/-- GET /entries handler body (rich variant, src/server.js lines 316-337),
after authentication: validate the optional bounds, filter, order, limit. -/
def listHandler (u : String) (fromD toD : Option String) (limit : Option JsNum)
    (db : DB) : Resp (List Entry) × DB :=
  if ¬ (∀ s ∈ fromD, s ≠ "" → isoDateOk s = true) then (.badReq "from: invalid", db)
  else if ¬ (∀ s ∈ toD, s ≠ "" → isoDateOk s = true) then (.badReq "to: invalid", db)
  else
    let fromF := jsOrStr fromD none
    let toF := jsOrStr toD none
    let lim := computeLim limit
    (.ok (((sortEntries (db.rows.filter (listPred u fromF toF))).take (limNat lim))), db)

/-- Running aggregate state for `COUNT(*) / AVG / MIN / MAX`, accumulated row
by row the way the SQL engine streams the aggregation. -/
structure Agg where
  count : ℕ
  sum : ℤ
  mn : Option ℤ
  mx : Option ℤ
deriving DecidableEq, Repr

/-- Fold one score into the aggregate. -/
def aggStep (a : Agg) (s : ℤ) : Agg :=
  { count := a.count + 1
    sum := a.sum + s
    mn := some (match a.mn with | none => s | some m => min m s)
    mx := some (match a.mx with | none => s | some m => max m s) }

/-- Aggregate a list of scores starting from the empty state. -/
def runAgg (l : List ℤ) : Agg :=
  l.foldl aggStep { count := 0, sum := 0, mn := none, mx := none }

/-- Postgres `ROUND(x, 1)` on a numeric: one decimal, halves away from zero
(the averages here are nonnegative, where that is floor of `10x + 1/2`,
divided by 10). -/
def round1 (q : ℚ) : ℚ :=
  (jround (10 * q) : ℚ) / 10

/-- The row GET /stats responds with: `count`, `avg` rounded to one decimal,
`min`, `max`; the SQL aggregates other than COUNT are NULL on an empty set. -/
structure StatsRow where
  count : ℕ
  avg : Option ℚ
  min : Option ℤ
  max : Option ℤ
deriving DecidableEq, Repr

/-- GET /stats handler body (rich variant, src/server.js lines 340-356), after
authentication: aggregates over every row of the requesting user, with no
LIMIT involved. -/
def statsHandler (u : String) (db : DB) : Resp StatsRow × DB :=
  let a := runAgg ((db.rows.filter (fun e => e.user_id = u)).map (·.score))
  (.ok { count := a.count
         avg := if a.count = 0 then none else some (round1 ((a.sum : ℚ) / (a.count : ℚ)))
         min := a.mn
         max := a.mx }, db)

/-- Raw update body after the coercion at the top of the PUT handler:
`score` has passed through `Number(...)` when present. -/
structure UpdateBody where
  score : Option JsNum
  text : Option String
  iv : Option String
  badge : Option String
  color : Option String
  date : Option String
deriving DecidableEq, Repr

/-- The validated SET fields of an UPDATE. -/
structure Patch where
  score : Option ℤ
  text : Option String
  date : Option String
  iv : Option String
  badge : Option String
  color : Option String
deriving DecidableEq, Repr

/-- Apply the SET clause to one row. -/
def applyPatch (p : Patch) (e : Entry) : Entry :=
  { e with
    score := p.score.getD e.score
    text := p.text.getD e.text
    date := p.date.getD e.date
    iv := match p.iv with | none => e.iv | some v => some v
    badge := match p.badge with | none => e.badge | some v => some v
    color := match p.color with | none => e.color | some v => some v }

/-- `Number.isInteger(Number(req.params.id))`. -/
def jsIsInteger (n : JsNum) : Bool :=
  match n with
  | .nan => false
  | .num q => q.den = 1

/-- The integer value of a `JsNum` known to be an integer (0 on NaN, which
`jsIsInteger` has excluded wherever this is used). -/
def jsToInt (n : JsNum) : ℤ :=
  match n with
  | .nan => 0
  | .num q => q.num

/-- Validate the update fields in the order the code pushes them
(score, text, date, iv, badge, color), failing on the first bad one;
`eff` already contains the recomputed color. -/
def validateUpdateFields (score : Option JsNum) (eff : UpdateBody) :
    Except String Patch :=
  match score with
  | some n =>
      match n with
      | .nan => .error "score: invalid"
      | .num q =>
          if ¬ (q.den = 1 ∧ 1 ≤ q ∧ q ≤ 100) then .error "score: invalid"
          else validateUpdateRest (some q.num) eff
  | none => validateUpdateRest none eff
where
  /-- The text/date/iv/badge/color checks after the score check. -/
  validateUpdateRest (sc : Option ℤ) (eff : UpdateBody) : Except String Patch :=
    if ¬ (∀ s ∈ eff.text, s.length ≤ 1000) then .error "text: invalid"
    else if ¬ (∀ s ∈ eff.date, isoDateOk s = true) then .error "date: invalid"
    else if ¬ (∀ s ∈ eff.iv, s.length ≤ 32) then .error "iv: invalid"
    else if ¬ (∀ s ∈ eff.badge, s.length ≤ 50) then .error "badge: invalid"
    else .ok { score := sc, text := eff.text, date := eff.date,
               iv := eff.iv, badge := eff.badge, color := eff.color }

/-- The `payload` after the automatic color recomputation (src/server.js
lines 373-376): when `score` is present and `color` is not, `color` becomes
`scoreToColor(payload.score)`. -/
def effUpdateBody (b : UpdateBody) : UpdateBody :=
  if b.score.isSome ∧ b.color = none then
    { b with color := some (scoreToColorJs (b.score.getD .nan)) }
  else b

/-- `!fields.length`: no updatable field is present in the (color-adjusted)
payload. -/
def updateFieldsEmpty (b : UpdateBody) : Prop :=
  b.score = none ∧ b.text = none ∧ b.date = none ∧ b.iv = none
    ∧ b.badge = none ∧ b.color = none

instance (b : UpdateBody) : Decidable (updateFieldsEmpty b) := by
  unfold updateFieldsEmpty
  infer_instance

/-- PUT /entries/:id handler body (rich variant, src/server.js lines 359-400),
after authentication: reject a non-integer id, recompute `color` when `score`
is present without an explicit color, validate each present field, reject an
empty field set, then run the UPDATE filtered by id and user_id and respond
with `result.rows[0]` — `okEmpty` when no row matched. -/
def updateHandler (u : String) (idRaw : JsNum) (b : UpdateBody) (db : DB) :
    Resp Entry × DB :=
  if ¬ jsIsInteger idRaw then (.badReq "Invalid id", db)
  else
    match validateUpdateFields b.score (effUpdateBody b) with
    | .error m => (.badReq m, db)
    | .ok p =>
        if updateFieldsEmpty (effUpdateBody b) then
          (.badReq "No fields to update", db)
        else
          let n := jsToInt idRaw
          let hit := fun e : Entry => e.id = n ∧ e.user_id = u
          let rows := db.rows.map (fun e => if hit e then applyPatch p e else e)
          let returned := (db.rows.filter (fun e => decide (hit e))).map (applyPatch p)
          (match returned with
           | [] => .okEmpty
           | r :: _ => .ok r,
           { db with rows := rows })

/-- DELETE /entries/:id handler body (rich variant, src/server.js lines
403-411), after authentication.  The handler does not check the id; the model
takes the ids the claims exercise, integers, directly (a NaN id would fail in
the driver, outside this model).  Always responds `{success: true}`. -/
def deleteHandler (u : String) (id : ℤ) (db : DB) : Resp Unit × DB :=
  (.ok (), { db with rows := db.rows.filter (fun e => ¬ (e.id = id ∧ e.user_id = u)) })

/-! ## Rich-variant endpoints: `authenticate` composed with the handlers.
An `authenticate` failure responds 401 before the route handler runs. -/

/-- POST /entries (rich variant). -/
def createEndpoint (resolve : String → Option String) (hdr : Option String)
    (today : String) (b : CreateBody) (db : DB) : Resp Entry × DB :=
  match authenticate resolve hdr with
  | .error m => (.unauth m, db)
  | .ok u => createHandler u today b db

/-- GET /entries (rich variant). -/
def listEndpoint (resolve : String → Option String) (hdr : Option String)
    (fromD toD : Option String) (limit : Option JsNum) (db : DB) :
    Resp (List Entry) × DB :=
  match authenticate resolve hdr with
  | .error m => (.unauth m, db)
  | .ok u => listHandler u fromD toD limit db

/-- GET /stats (rich variant). -/
def statsEndpoint (resolve : String → Option String) (hdr : Option String)
    (db : DB) : Resp StatsRow × DB :=
  match authenticate resolve hdr with
  | .error m => (.unauth m, db)
  | .ok u => statsHandler u db

/-- PUT /entries/:id (rich variant). -/
def updateEndpoint (resolve : String → Option String) (hdr : Option String)
    (idRaw : JsNum) (b : UpdateBody) (db : DB) : Resp Entry × DB :=
  match authenticate resolve hdr with
  | .error m => (.unauth m, db)
  | .ok u => updateHandler u idRaw b db

/-- DELETE /entries/:id (rich variant). -/
def deleteEndpoint (resolve : String → Option String) (hdr : Option String)
    (id : ℤ) (db : DB) : Resp Unit × DB :=
  match authenticate resolve hdr with
  | .error m => (.unauth m, db)
  | .ok u => deleteHandler u id db

/-! ## v1 variant (src/server.js lines 1-191)

Multi-tenant, columns `id, user_id, date, score, text`.  Every route calls
`getUserIdFromToken` inside its `try`; a thrown auth error goes through
`next(err)` to the generic error handler, which responds **400**. -/

/-- A row of the `entries` table in the v1 variant. -/
structure Entry1 where
  id : ℤ
  user_id : String
  date : String
  score : ℤ
  text : String
deriving DecidableEq, Repr

/-- The v1 store. -/
structure DB1 where
  rows : List Entry1
  nextId : ℤ
deriving DecidableEq, Repr

/-- Raw v1 create body (`score` post-`Number`, `text` after `?? ""`). -/
structure CreateBody1 where
  score : JsNum
  text : Option String
  date : Option String
deriving DecidableEq, Repr

/-- zod `entrySchema.parse` (v1 variant, src/server.js lines 37-41). -/
def entrySchemaParse1 (b : CreateBody1) : Except String (ℤ × String × Option String) :=
  match b.score with
  | .nan => .error "score: invalid"
  | .num q =>
      if ¬ (q.den = 1 ∧ 1 ≤ q ∧ q ≤ 100) then .error "score: invalid"
      else
        let text := b.text.getD ""
        if ¬ text.length ≤ 1000 then .error "text: invalid"
        else if ¬ (∀ s ∈ b.date, isoDateOk s = true) then .error "date: invalid"
        else .ok (q.num, text, b.date)

/-- POST /entries (v1 variant, src/server.js lines 67-87). -/
def v1Create (resolve : String → Option String) (hdr : Option String)
    (today : String) (b : CreateBody1) (db : DB1) : Resp Entry1 × DB1 :=
  match getUserIdFromToken resolve hdr with
  | .error m => (.badReq m, db)
  | .ok u =>
      match entrySchemaParse1 b with
      | .error m => (.badReq m, db)
      | .ok (score, text, dateOpt) =>
          let date := (jsOrStr dateOpt (some today)).getD today
          let row : Entry1 :=
            { id := db.nextId, user_id := u, date := date, score := score, text := text }
          (.ok row, { rows := db.rows ++ [row], nextId := db.nextId + 1 })

/-- The v1 list WHERE clause. -/
def listPred1 (u : String) (fromD toD : Option String) (e : Entry1) : Bool :=
  e.user_id = u
    && (match fromD with | none => true | some f => f ≤ e.date)
    && (match toD with | none => true | some t => e.date ≤ t)

/-- `ORDER BY date DESC, id DESC` on v1 rows. -/
def entryBefore1 (a b : Entry1) : Bool :=
  (b.date < a.date) || (a.date = b.date && b.id ≤ a.id)

/-- Insertion into a list sorted by `entryBefore1`. -/
def insertSorted1 (e : Entry1) : List Entry1 → List Entry1
  | [] => [e]
  | x :: xs => if entryBefore1 e x then e :: x :: xs else x :: insertSorted1 e xs

/-- Sorting v1 rows by the SELECT's ORDER BY. -/
def sortEntries1 (l : List Entry1) : List Entry1 :=
  l.foldr insertSorted1 []

/-- GET /entries (v1 variant, src/server.js lines 90-113). -/
def v1List (resolve : String → Option String) (hdr : Option String)
    (fromD toD : Option String) (limit : Option JsNum) (db : DB1) :
    Resp (List Entry1) × DB1 :=
  match getUserIdFromToken resolve hdr with
  | .error m => (.badReq m, db)
  | .ok u =>
      if ¬ (∀ s ∈ fromD, s ≠ "" → isoDateOk s = true) then (.badReq "from: invalid", db)
      else if ¬ (∀ s ∈ toD, s ≠ "" → isoDateOk s = true) then (.badReq "to: invalid", db)
      else
        let lim := computeLim limit
        (.ok ((sortEntries1 (db.rows.filter
            (listPred1 u (jsOrStr fromD none) (jsOrStr toD none)))).take (limNat lim)), db)

/-- GET /stats (v1 variant, src/server.js lines 116-134). -/
def v1Stats (resolve : String → Option String) (hdr : Option String) (db : DB1) :
    Resp StatsRow × DB1 :=
  match getUserIdFromToken resolve hdr with
  | .error m => (.badReq m, db)
  | .ok u =>
      let a := runAgg ((db.rows.filter (fun e => e.user_id = u)).map (·.score))
      (.ok { count := a.count
             avg := if a.count = 0 then none else some (round1 ((a.sum : ℚ) / (a.count : ℚ)))
             min := a.mn
             max := a.mx }, db)

/-- Raw v1/basic update body (`score` post-`Number` when present). -/
structure UpdateBody1 where
  score : Option JsNum
  text : Option String
  date : Option String
deriving DecidableEq, Repr

/-- Validate the v1/basic update fields in code order (score, text, date). -/
def validateUpdateFields1 (b : UpdateBody1) :
    Except String (Option ℤ × Option String × Option String) :=
  match b.score with
  | some .nan => .error "score: invalid"
  | some (.num q) =>
      if ¬ (q.den = 1 ∧ 1 ≤ q ∧ q ≤ 100) then .error "score: invalid"
      else validateRest1 (some q.num) b
  | none => validateRest1 none b
where
  /-- The text/date checks after the score check. -/
  validateRest1 (sc : Option ℤ) (b : UpdateBody1) :
      Except String (Option ℤ × Option String × Option String) :=
    if ¬ (∀ s ∈ b.text, s.length ≤ 1000) then .error "text: invalid"
    else if ¬ (∀ s ∈ b.date, isoDateOk s = true) then .error "date: invalid"
    else .ok (sc, b.text, b.date)

/-- Apply a v1/basic SET clause to a v1 row. -/
def applyPatch1 (sc : Option ℤ) (tx dt : Option String) (e : Entry1) : Entry1 :=
  { e with score := sc.getD e.score, text := tx.getD e.text, date := dt.getD e.date }

/-- PUT /entries/:id (v1 variant, src/server.js lines 137-168). -/
def v1Update (resolve : String → Option String) (hdr : Option String)
    (idRaw : JsNum) (b : UpdateBody1) (db : DB1) : Resp Entry1 × DB1 :=
  match getUserIdFromToken resolve hdr with
  | .error m => (.badReq m, db)
  | .ok u =>
      if ¬ jsIsInteger idRaw then (.badReq "Invalid id", db)
      else
        match validateUpdateFields1 b with
        | .error m => (.badReq m, db)
        | .ok (sc, tx, dt) =>
            if b.score = none ∧ b.text = none ∧ b.date = none then
              (.badReq "No fields to update", db)
            else
              let n := jsToInt idRaw
              let hit := fun e : Entry1 => e.id = n ∧ e.user_id = u
              let rows := db.rows.map (fun e => if hit e then applyPatch1 sc tx dt e else e)
              let returned := (db.rows.filter (fun e => decide (hit e))).map (applyPatch1 sc tx dt)
              (match returned with
               | [] => .okEmpty
               | r :: _ => .ok r,
               { db with rows := rows })

/-- DELETE /entries/:id (v1 variant, src/server.js lines 171-180). -/
def v1Delete (resolve : String → Option String) (hdr : Option String)
    (id : ℤ) (db : DB1) : Resp Unit × DB1 :=
  match getUserIdFromToken resolve hdr with
  | .error m => (.badReq m, db)
  | .ok u => (.ok (), { db with rows := db.rows.filter (fun e => ¬ (e.id = id ∧ e.user_id = u)) })

/-! ## Basic variant (src/unnamed/part_000)

Single-tenant, no authentication, columns `id, date, score, text`.  Only the
handlers the claims touch are modelled. -/

/-- A row of the `entries` table in the basic variant. -/
structure Entry0 where
  id : ℤ
  date : String
  score : ℤ
  text : String
deriving DecidableEq, Repr

/-- The basic store. -/
structure DB0 where
  rows : List Entry0
  nextId : ℤ
deriving DecidableEq, Repr

/-- Apply a basic SET clause to a basic row. -/
def applyPatch0 (sc : Option ℤ) (tx dt : Option String) (e : Entry0) : Entry0 :=
  { e with score := sc.getD e.score, text := tx.getD e.text, date := dt.getD e.date }

/-- PUT /entries/:id (basic variant, src/unnamed/part_000 lines 98-127):
like the v1 update but with no auth and no user_id filter. -/
def basicUpdate (idRaw : JsNum) (b : UpdateBody1) (db : DB0) : Resp Entry0 × DB0 :=
  if ¬ jsIsInteger idRaw then (.badReq "Invalid id", db)
  else
    match validateUpdateFields1 b with
    | .error m => (.badReq m, db)
    | .ok (sc, tx, dt) =>
        if b.score = none ∧ b.text = none ∧ b.date = none then
          (.badReq "No fields to update", db)
        else
          let n := jsToInt idRaw
          let rows := db.rows.map (fun e => if e.id = n then applyPatch0 sc tx dt e else e)
          let returned := (db.rows.filter (fun e => decide (e.id = n))).map (applyPatch0 sc tx dt)
          (match returned with
           | [] => .okEmpty
           | r :: _ => .ok r,
           { db with rows := rows })

/-- DELETE /entries/:id (basic variant, src/unnamed/part_000 lines 130-138). -/
def basicDelete (id : ℤ) (db : DB0) : Resp Unit × DB0 :=
  (.ok (), { db with rows := db.rows.filter (fun e => ¬ e.id = id) })

/-- The row list of a 200 list response (empty for the other responses). -/
def okRows {α : Type} : Resp (List α) → List α
  | .ok l => l
  | .okEmpty => []
  | .badReq _ => []
  | .unauth _ => []

/-! ## Supporting lemmas -/

theorem mem_insertSorted {x e : Entry} {l : List Entry} :
    x ∈ insertSorted e l ↔ x = e ∨ x ∈ l := by
  induction l with
  | nil => simp [insertSorted]
  | cons y ys ih =>
      by_cases h : entryBefore e y
      · simp [insertSorted, h]
      · simp only [insertSorted, h, Bool.false_eq_true, if_false, List.mem_cons, ih]
        tauto

theorem mem_sortEntries {x : Entry} {l : List Entry} :
    x ∈ sortEntries l ↔ x ∈ l := by
  induction l with
  | nil => simp [sortEntries]
  | cons y ys ih =>
      show x ∈ insertSorted y (sortEntries ys) ↔ _
      rw [mem_insertSorted]
      simp [ih]

theorem aggStep_count (a : Agg) (x : ℤ) : (aggStep a x).count = a.count + 1 := rfl

theorem aggStep_sum (a : Agg) (x : ℤ) : (aggStep a x).sum = a.sum + x := rfl

theorem aggStep_mn (a : Agg) (x : ℤ) :
    (aggStep a x).mn = some (match a.mn with | none => x | some k => min k x) := rfl

theorem aggStep_mx (a : Agg) (x : ℤ) :
    (aggStep a x).mx = some (match a.mx with | none => x | some k => max k x) := rfl

theorem foldl_aggStep_count (l : List ℤ) : ∀ a : Agg,
    (List.foldl aggStep a l).count = a.count + l.length := by
  induction l with
  | nil => intro a; simp
  | cons x xs ih =>
      intro a
      rw [List.foldl_cons, ih (aggStep a x), aggStep_count, List.length_cons]
      omega

theorem foldl_aggStep_sum (l : List ℤ) : ∀ a : Agg,
    (List.foldl aggStep a l).sum = a.sum + l.sum := by
  induction l with
  | nil => intro a; simp
  | cons x xs ih =>
      intro a
      rw [List.foldl_cons, ih (aggStep a x), aggStep_sum, List.sum_cons]
      ring

theorem foldl_aggStep_mn_none (l : List ℤ) : ∀ a : Agg,
    (List.foldl aggStep a l).mn = none ↔ a.mn = none ∧ l = [] := by
  induction l with
  | nil => intro a; simp
  | cons x xs ih =>
      intro a
      rw [List.foldl_cons, ih (aggStep a x)]
      simp [aggStep_mn]

theorem foldl_aggStep_mn_some (l : List ℤ) : ∀ (a : Agg) (m : ℤ),
    (List.foldl aggStep a l).mn = some m →
    (m ∈ l ∨ a.mn = some m) ∧ (∀ x ∈ l, m ≤ x) ∧ (∀ k, a.mn = some k → m ≤ k) := by
  induction l with
  | nil =>
      intro a m h
      simp only [List.foldl_nil] at h
      refine ⟨Or.inr h, by simp, ?_⟩
      intro k hk
      rw [h] at hk
      simp only [Option.some.injEq] at hk
      omega
  | cons x xs ih =>
      intro a m h
      obtain ⟨hmem, hle, hacc⟩ := ih (aggStep a x) m h
      have hmx : m ≤ x := by
        have := hacc _ (aggStep_mn a x)
        cases hmn : a.mn with
        | none => simpa [hmn] using this
        | some k => simp only [hmn] at this; omega
      refine ⟨?_, ?_, ?_⟩
      · rcases hmem with hmem | hmem
        · exact Or.inl (List.mem_cons_of_mem x hmem)
        · rw [aggStep_mn] at hmem
          simp only [Option.some.injEq] at hmem
          cases hmn : a.mn with
          | none => simp only [hmn] at hmem; exact Or.inl (by simp [hmem])
          | some k =>
              simp only [hmn] at hmem
              rcases le_total k x with hkx | hkx
              · have hkm : k = m := by omega
                right
                rw [hkm]
              · left
                have hxm : x = m := by omega
                simp [hxm]
      · intro y hy
        rcases List.mem_cons.mp hy with hy | hy
        · omega
        · exact hle y hy
      · intro k hk
        have := hacc _ (aggStep_mn a x)
        rw [hk] at this
        simp only at this
        omega

theorem foldl_aggStep_mx_none (l : List ℤ) : ∀ a : Agg,
    (List.foldl aggStep a l).mx = none ↔ a.mx = none ∧ l = [] := by
  induction l with
  | nil => intro a; simp
  | cons x xs ih =>
      intro a
      rw [List.foldl_cons, ih (aggStep a x)]
      simp [aggStep_mx]

theorem foldl_aggStep_mx_some (l : List ℤ) : ∀ (a : Agg) (m : ℤ),
    (List.foldl aggStep a l).mx = some m →
    (m ∈ l ∨ a.mx = some m) ∧ (∀ x ∈ l, x ≤ m) ∧ (∀ k, a.mx = some k → k ≤ m) := by
  induction l with
  | nil =>
      intro a m h
      simp only [List.foldl_nil] at h
      refine ⟨Or.inr h, by simp, ?_⟩
      intro k hk
      rw [h] at hk
      simp only [Option.some.injEq] at hk
      omega
  | cons x xs ih =>
      intro a m h
      obtain ⟨hmem, hle, hacc⟩ := ih (aggStep a x) m h
      have hmx : x ≤ m := by
        have := hacc _ (aggStep_mx a x)
        cases hmn : a.mx with
        | none => simpa [hmn] using this
        | some k => simp only [hmn] at this; omega
      refine ⟨?_, ?_, ?_⟩
      · rcases hmem with hmem | hmem
        · exact Or.inl (List.mem_cons_of_mem x hmem)
        · rw [aggStep_mx] at hmem
          simp only [Option.some.injEq] at hmem
          cases hmn : a.mx with
          | none => simp only [hmn] at hmem; exact Or.inl (by simp [hmem])
          | some k =>
              simp only [hmn] at hmem
              rcases le_total k x with hkx | hkx
              · left
                have hxm : x = m := by omega
                simp [hxm]
              · have hkm : k = m := by omega
                right
                rw [hkm]
      · intro y hy
        rcases List.mem_cons.mp hy with hy | hy
        · omega
        · exact hle y hy
      · intro k hk
        have := hacc _ (aggStep_mx a x)
        rw [hk] at this
        simp only at this
        omega

theorem jround_mono {q r : ℚ} (h : q ≤ r) : jround q ≤ jround r :=
  Int.floor_le_floor (by linarith)

theorem jround_nonneg {q : ℚ} (h : 0 ≤ q) : 0 ≤ jround q :=
  Int.le_floor.mpr (by push_cast; linarith)

theorem jround_le_255 {q : ℚ} (h : q ≤ 255) : jround q ≤ 255 :=
  Int.floor_le_iff.mpr (by push_cast; linarith)

theorem clamp_idem (s : ℚ) :
    max 0 (min 100 (max 0 (min 100 s))) = max 0 (min 100 s) := by
  rw [min_eq_right (max_le (by norm_num) (min_le_left _ _)),
    max_eq_right (le_max_left 0 _)]

theorem scoreToColor_low {s : ℚ} (h0 : 0 ≤ s) (h50 : s ≤ 50) :
    scoreToColor s = (255, jround (255 * (s / 50)), 0) := by
  have hc : max 0 (min 100 s) = s := by
    rw [min_eq_right (le_trans h50 (by norm_num)), max_eq_right h0]
  simp [scoreToColor, hc, h50]

theorem scoreToColor_high {s : ℚ} (h50 : 50 < s) (h100 : s ≤ 100) :
    scoreToColor s = (jround (255 * (1 - (s - 50) / 50)), 255, 0) := by
  have hc : max 0 (min 100 s) = s := by
    rw [min_eq_right h100, max_eq_right (by linarith)]
  simp [scoreToColor, hc, not_le.mpr h50]

/-! ## Claim theorems -/

/-- **C6**: `scoreToColor` is a pure function of its score: its blue channel
is always 0, it clamps its input to [0,100] (the clamped and unclamped inputs
give the same color), on scores in [0,50] red is 255 and green is the rounded
linear ramp `255·s/50` — 0 at score 0, 255 at score 50, within [0,255] and
monotone in the score — and on scores in (50,100] green is 255 and red is the
rounded linear ramp `255·(1-(s-50)/50)` — 255 at score 50, 0 at score 100,
within [0,255] and falling in the score; in particular
`scoreToColor 0 = (255,0,0)`, `scoreToColor 50 = (255,255,0)` and
`scoreToColor 100 = (0,255,0)`. -/
theorem scoreToColor_spec :
    (∀ s : ℚ, (scoreToColor s).2.2 = 0) ∧
    (∀ s : ℚ, scoreToColor s = scoreToColor (max 0 (min 100 s))) ∧
    (∀ s : ℚ, 0 ≤ s → s ≤ 50 →
      (scoreToColor s).1 = 255 ∧ (scoreToColor s).2.1 = jround (255 * (s / 50)) ∧
      0 ≤ (scoreToColor s).2.1 ∧ (scoreToColor s).2.1 ≤ 255) ∧
    (∀ s t : ℚ, 0 ≤ s → s ≤ t → t ≤ 50 →
      (scoreToColor s).2.1 ≤ (scoreToColor t).2.1) ∧
    (∀ s : ℚ, 50 < s → s ≤ 100 →
      (scoreToColor s).2.1 = 255 ∧
      (scoreToColor s).1 = jround (255 * (1 - (s - 50) / 50)) ∧
      0 ≤ (scoreToColor s).1 ∧ (scoreToColor s).1 ≤ 255) ∧
    (∀ s t : ℚ, 50 < s → s ≤ t → t ≤ 100 →
      (scoreToColor t).1 ≤ (scoreToColor s).1) ∧
    scoreToColor 0 = (255, 0, 0) ∧ scoreToColor 50 = (255, 255, 0) ∧
    scoreToColor 100 = (0, 255, 0) := by
  refine ⟨?_, ?_, ?_, ?_, ?_, ?_, ?_, ?_, ?_⟩
  · intro s
    simp only [scoreToColor]
    split <;> rfl
  · intro s
    simp only [scoreToColor, clamp_idem]
  · intro s h0 h50
    rw [scoreToColor_low h0 h50]
    have hu0 : (0 : ℚ) ≤ s / 50 := div_nonneg h0 (by norm_num)
    have hu1 : s / 50 ≤ 1 := (div_le_one (by norm_num)).mpr (by linarith)
    exact ⟨rfl, rfl, jround_nonneg (by linarith), jround_le_255 (by linarith)⟩
  · intro s t h0 hst ht50
    rw [scoreToColor_low h0 (le_trans hst ht50), scoreToColor_low (by linarith) ht50]
    exact jround_mono (by nlinarith)
  · intro s h50 h100
    rw [scoreToColor_high h50 h100]
    have hu0 : (0 : ℚ) ≤ (s - 50) / 50 := div_nonneg (by linarith) (by norm_num)
    have hu1 : (s - 50) / 50 ≤ 1 := (div_le_one (by norm_num)).mpr (by linarith)
    exact ⟨rfl, rfl, jround_nonneg (by linarith), jround_le_255 (by linarith)⟩
  · intro s t h50 hst ht100
    rw [scoreToColor_high h50 (le_trans hst ht100),
      scoreToColor_high (lt_of_lt_of_le h50 hst) ht100]
    exact jround_mono (by nlinarith)
  · norm_num [scoreToColor, jround]
  · norm_num [scoreToColor, jround]
  · norm_num [scoreToColor, jround]

/-- Witness for C6: the characterisation evaluated at concrete scores. -/
theorem scoreToColor_spec_witness :
    (scoreToColor 30).2.2 = 0 ∧ (scoreToColor 30).1 = 255 ∧
    (scoreToColor 30).2.1 = jround (255 * ((30 : ℚ) / 50)) ∧
    (scoreToColor 30).2.1 ≤ (scoreToColor 40).2.1 ∧
    (scoreToColor 80).2.1 = 255 ∧
    (scoreToColor 70).1 ≤ (scoreToColor 60).1 := by
  obtain ⟨hb, _, hlo, hmono, hhi, hanti, _, _, _⟩ := scoreToColor_spec
  exact ⟨hb 30, (hlo 30 (by norm_num) (by norm_num)).1,
    (hlo 30 (by norm_num) (by norm_num)).2.1,
    hmono 30 40 (by norm_num) (by norm_num) (by norm_num),
    (hhi 80 (by norm_num) (by norm_num)).1,
    hanti 60 70 (by norm_num) (by norm_num) (by norm_num)⟩

/-- **C7**: the SQL limit is 365 when no limit parameter is given and never
exceeds 1000 whatever limit is requested; a GET /entries with `limit=5000`
returns at most 1000 rows (whatever the filters, identity and store). -/
theorem list_limit_clamp :
    computeLim none = 365 ∧
    (∀ n : JsNum, computeLim (some n) ≤ 1000) ∧
    (∀ (u : String) (fromD toD : Option String) (db : DB),
      (okRows ((listHandler u fromD toD (some (.num 5000)) db).1)).length ≤ 1000) := by
  refine ⟨by decide, ?_, ?_⟩
  · intro n
    exact min_le_right _ _
  · intro u fromD toD db
    have hlim : limNat (computeLim (some (.num 5000))) = 1000 := by
      have hv : computeLim (some (.num 5000)) = 1000 := by decide
      have h1 : jround (1000 : ℚ) = 1000 := by norm_num [jround]
      rw [limNat, hv, h1]
      rfl
    rw [listHandler]
    split
    · simp [okRows]
    · split
      · simp [okRows]
      · simp only [okRows, hlim, List.length_take]
        exact min_le_left _ _

/-- Witness for C7: a concrete GET /entries with `limit=5000`. -/
theorem list_limit_clamp_witness :
    (okRows ((listHandler "u" none none (some (.num 5000)) ⟨[], 1⟩).1)).length ≤ 1000 :=
  list_limit_clamp.2.2 "u" none none ⟨[], 1⟩

/-- The scores of the requesting identity's full row set — the SELECT's
matching set, used to state what /stats aggregates. -/
def userScores (u : String) (db : DB) : List ℤ :=
  (db.rows.filter (fun e => e.user_id = u)).map (·.score)

/-- **C8**: GET /stats returns a 200 row holding the count of the requesting
identity's entries over the full matching set (no LIMIT is involved), the
average score rounded to one decimal place, the minimum and the maximum;
when the count is 0 the average, minimum and maximum are null, and the store
is left unchanged. -/
theorem stats_correct (u : String) (db : DB) :
    ∃ row : StatsRow, statsHandler u db = (.ok row, db) ∧
      row.count = (userScores u db).length ∧
      (row.count = 0 → row.avg = none ∧ row.min = none ∧ row.max = none) ∧
      (0 < row.count →
        row.avg = some (round1 (((userScores u db).sum : ℚ) / ((userScores u db).length : ℚ))) ∧
        (∃ m, row.min = some m ∧ m ∈ userScores u db ∧ ∀ x ∈ userScores u db, m ≤ x) ∧
        (∃ M, row.max = some M ∧ M ∈ userScores u db ∧ ∀ x ∈ userScores u db, x ≤ M)) := by
  have hrow : statsHandler u db =
      (.ok { count := (runAgg (userScores u db)).count
             avg := if (runAgg (userScores u db)).count = 0 then none
                    else some (round1 (((runAgg (userScores u db)).sum : ℚ)
                      / ((runAgg (userScores u db)).count : ℚ)))
             min := (runAgg (userScores u db)).mn
             max := (runAgg (userScores u db)).mx }, db) := rfl
  have hcount : (runAgg (userScores u db)).count = (userScores u db).length := by
    rw [runAgg, foldl_aggStep_count]
    simp
  have hsum : (runAgg (userScores u db)).sum = (userScores u db).sum := by
    rw [runAgg, foldl_aggStep_sum]
    simp
  refine ⟨_, hrow, ?_, ?_, ?_⟩
  · exact hcount
  · intro h0
    replace h0 : (runAgg (userScores u db)).count = 0 := h0
    have hnil : userScores u db = [] := by
      rw [← List.length_eq_zero, ← hcount]
      exact h0
    refine ⟨?_, ?_, ?_⟩
    · show (if (runAgg (userScores u db)).count = 0 then _ else _) = none
      rw [if_pos h0]
    · show (runAgg (userScores u db)).mn = none
      rw [runAgg, foldl_aggStep_mn_none]
      exact ⟨rfl, hnil⟩
    · show (runAgg (userScores u db)).mx = none
      rw [runAgg, foldl_aggStep_mx_none]
      exact ⟨rfl, hnil⟩
  · intro hpos
    replace hpos : 0 < (runAgg (userScores u db)).count := hpos
    refine ⟨?_, ?_, ?_⟩
    · show (if (runAgg (userScores u db)).count = 0 then _ else _) = _
      rw [if_neg (Nat.pos_iff_ne_zero.mp hpos), hsum, hcount]
    · show ∃ m, (runAgg (userScores u db)).mn = some m ∧ _
      cases hmn : (runAgg (userScores u db)).mn with
      | none =>
          exfalso
          rw [runAgg, foldl_aggStep_mn_none] at hmn
          rw [hcount, hmn.2] at hpos
          simp at hpos
      | some m =>
          obtain ⟨hmem, hle, _⟩ := foldl_aggStep_mn_some _ _ _ hmn
          refine ⟨m, rfl, ?_, hle⟩
          rcases hmem with hmem | hmem
          · exact hmem
          · simp at hmem
    · show ∃ M, (runAgg (userScores u db)).mx = some M ∧ _
      cases hmx : (runAgg (userScores u db)).mx with
      | none =>
          exfalso
          rw [runAgg, foldl_aggStep_mx_none] at hmx
          rw [hcount, hmx.2] at hpos
          simp at hpos
      | some m =>
          obtain ⟨hmem, hle, _⟩ := foldl_aggStep_mx_some _ _ _ hmx
          refine ⟨m, rfl, ?_, hle⟩
          rcases hmem with hmem | hmem
          · exact hmem
          · simp at hmem

/-- Witness for C8: the characterisation applied to a concrete two-row store. -/
theorem stats_correct_witness :
    ∃ row : StatsRow,
      statsHandler "a"
          ⟨[⟨1, "a", "2024-01-01", 10, "", none, none, none⟩,
            ⟨2, "a", "2024-01-02", 21, "", none, none, none⟩], 3⟩
        = (.ok row,
           ⟨[⟨1, "a", "2024-01-01", 10, "", none, none, none⟩,
             ⟨2, "a", "2024-01-02", 21, "", none, none, none⟩], 3⟩) ∧
      row.count = (userScores "a"
          ⟨[⟨1, "a", "2024-01-01", 10, "", none, none, none⟩,
            ⟨2, "a", "2024-01-02", 21, "", none, none, none⟩], 3⟩).length ∧
      (row.count = 0 → row.avg = none ∧ row.min = none ∧ row.max = none) ∧
      (0 < row.count →
        row.avg = some (round1 (((userScores "a"
            ⟨[⟨1, "a", "2024-01-01", 10, "", none, none, none⟩,
              ⟨2, "a", "2024-01-02", 21, "", none, none, none⟩], 3⟩).sum : ℚ)
          / ((userScores "a"
            ⟨[⟨1, "a", "2024-01-01", 10, "", none, none, none⟩,
              ⟨2, "a", "2024-01-02", 21, "", none, none, none⟩], 3⟩).length : ℚ))) ∧
        (∃ m, row.min = some m ∧ m ∈ userScores "a"
            ⟨[⟨1, "a", "2024-01-01", 10, "", none, none, none⟩,
              ⟨2, "a", "2024-01-02", 21, "", none, none, none⟩], 3⟩ ∧
          ∀ x ∈ userScores "a"
            ⟨[⟨1, "a", "2024-01-01", 10, "", none, none, none⟩,
              ⟨2, "a", "2024-01-02", 21, "", none, none, none⟩], 3⟩, m ≤ x) ∧
        (∃ M, row.max = some M ∧ M ∈ userScores "a"
            ⟨[⟨1, "a", "2024-01-01", 10, "", none, none, none⟩,
              ⟨2, "a", "2024-01-02", 21, "", none, none, none⟩], 3⟩ ∧
          ∀ x ∈ userScores "a"
            ⟨[⟨1, "a", "2024-01-01", 10, "", none, none, none⟩,
              ⟨2, "a", "2024-01-02", 21, "", none, none, none⟩], 3⟩, x ≤ M)) :=
  stats_correct "a"
    ⟨[⟨1, "a", "2024-01-01", 10, "", none, none, none⟩,
      ⟨2, "a", "2024-01-02", 21, "", none, none, none⟩], 3⟩

/-- **C9**: DELETE is idempotent: it always responds `{success: true}` with no
error — also for an id matching no stored row, in which case the store is
unchanged — and deleting the same id twice leaves the store exactly as
deleting it once, in the rich variant (per identity) and the basic variant
alike. -/
theorem delete_idempotent (u : String) (id : ℤ) (db : DB) (db0 : DB0) :
    (deleteHandler u id db).1 = .ok () ∧
    (deleteHandler u id (deleteHandler u id db).2).2 = (deleteHandler u id db).2 ∧
    ((∀ e ∈ db.rows, ¬ (e.id = id ∧ e.user_id = u)) → (deleteHandler u id db).2 = db) ∧
    (basicDelete id db0).1 = .ok () ∧
    (basicDelete id (basicDelete id db0).2).2 = (basicDelete id db0).2 ∧
    ((∀ e ∈ db0.rows, ¬ e.id = id) → (basicDelete id db0).2 = db0) := by
  refine ⟨rfl, ?_, ?_, rfl, ?_, ?_⟩
  · show ({ db with rows := _ } : DB) = { db with rows := _ }
    simp [deleteHandler, List.filter_filter]
  · intro h
    have hfe : db.rows.filter (fun e => ¬ (e.id = id ∧ e.user_id = u)) = db.rows :=
      List.filter_eq_self.mpr (fun e he => decide_eq_true (h e he))
    show ({ db with rows := db.rows.filter (fun e => ¬ (e.id = id ∧ e.user_id = u)) } : DB) = db
    rw [hfe]
  · show ({ db0 with rows := _ } : DB0) = { db0 with rows := _ }
    simp [basicDelete, List.filter_filter]
  · intro h
    have hfe : db0.rows.filter (fun e => ¬ e.id = id) = db0.rows :=
      List.filter_eq_self.mpr (fun e he => decide_eq_true (h e he))
    show ({ db0 with rows := db0.rows.filter (fun e => ¬ e.id = id) } : DB0) = db0
    rw [hfe]

/-- Witness for C9: deleting a missing id from concrete stores. -/
theorem delete_idempotent_witness :
    (deleteHandler "u" 1 ⟨[⟨2, "v", "2024-01-01", 5, "", none, none, none⟩], 3⟩).2
      = ⟨[⟨2, "v", "2024-01-01", 5, "", none, none, none⟩], 3⟩ ∧
    (basicDelete 1 ⟨[⟨2, "2024-01-01", 5, ""⟩], 3⟩).2 = ⟨[⟨2, "2024-01-01", 5, ""⟩], 3⟩ := by
  refine ⟨?_, ?_⟩
  · exact (delete_idempotent "u" 1 ⟨[⟨2, "v", "2024-01-01", 5, "", none, none, none⟩], 3⟩
      ⟨[], 1⟩).2.2.1 (by decide)
  · exact (delete_idempotent "u" 1 ⟨[], 1⟩ ⟨[⟨2, "2024-01-01", 5, ""⟩], 3⟩).2.2.2.2.2 (by decide)

/-- **C10**: a PUT whose integer id matches no stored row (nonexistent id, or
a row owned by another identity), with a payload that passes validation and
carries at least one field, responds HTTP 200 with an empty body — the
undefined first row of the empty result set, not a 404 and not an error
body — and leaves the store unchanged; likewise in the basic variant for an
id matching no row. -/
theorem update_missing_id_empty_ok (u : String) (idRaw : JsNum) (b : UpdateBody)
    (db : DB) (p : Patch) (b1 : UpdateBody1) (db0 : DB0)
    (sc : Option ℤ) (tx dt : Option String)
    (hid : jsIsInteger idRaw = true)
    (hv : validateUpdateFields b.score (effUpdateBody b) = .ok p)
    (hne : ¬ updateFieldsEmpty (effUpdateBody b))
    (hmiss : ∀ e ∈ db.rows, ¬ (e.id = jsToInt idRaw ∧ e.user_id = u))
    (hv1 : validateUpdateFields1 b1 = .ok (sc, tx, dt))
    (hne1 : ¬ (b1.score = none ∧ b1.text = none ∧ b1.date = none))
    (hmiss0 : ∀ e ∈ db0.rows, ¬ e.id = jsToInt idRaw) :
    updateHandler u idRaw b db = (.okEmpty, db) ∧
    (Resp.okEmpty : Resp Entry).status = 200 ∧
    basicUpdate idRaw b1 db0 = (.okEmpty, db0) := by
  refine ⟨?_, rfl, ?_⟩
  · have hfilter : db.rows.filter
        (fun e => decide (e.id = jsToInt idRaw ∧ e.user_id = u)) = [] :=
      List.filter_eq_nil_iff.mpr (fun e he => by simpa using hmiss e he)
    have hmap : db.rows.map
        (fun e => if e.id = jsToInt idRaw ∧ e.user_id = u then applyPatch p e else e)
        = db.rows := by
      rw [List.map_congr_left (fun e he => if_neg (hmiss e he))]
      simp
    rw [updateHandler, if_neg (by simp [hid]), hv]
    simp only [if_neg hne, hfilter, hmap, List.map_nil]
  · have hfilter : db0.rows.filter (fun e => decide (e.id = jsToInt idRaw)) = [] :=
      List.filter_eq_nil_iff.mpr (fun e he => by simpa using hmiss0 e he)
    have hmap : db0.rows.map
        (fun e => if e.id = jsToInt idRaw then applyPatch0 sc tx dt e else e)
        = db0.rows := by
      rw [List.map_congr_left (fun e he => if_neg (hmiss0 e he))]
      simp
    rw [basicUpdate, if_neg (by simp [hid]), hv1]
    simp only [if_neg hne1, hfilter, hmap, List.map_nil]

/-- Witness for C10: updating id 5 in stores that do not hold it. -/
theorem update_missing_id_empty_ok_witness :
    updateHandler "u" (.num 5)
        ⟨none, some "hi", none, none, none, none⟩
        ⟨[⟨1, "v", "2024-01-01", 5, "", none, none, none⟩], 2⟩
      = (.okEmpty, ⟨[⟨1, "v", "2024-01-01", 5, "", none, none, none⟩], 2⟩) ∧
    (Resp.okEmpty : Resp Entry).status = 200 ∧
    basicUpdate (.num 5) ⟨none, some "hi", none⟩ ⟨[⟨1, "2024-01-01", 5, ""⟩], 2⟩
      = (.okEmpty, ⟨[⟨1, "2024-01-01", 5, ""⟩], 2⟩) :=
  update_missing_id_empty_ok "u" (.num 5)
    ⟨none, some "hi", none, none, none, none⟩
    ⟨[⟨1, "v", "2024-01-01", 5, "", none, none, none⟩], 2⟩
    ⟨none, some "hi", none, none, none, none⟩
    ⟨none, some "hi", none⟩ ⟨[⟨1, "2024-01-01", 5, ""⟩], 2⟩
    none (some "hi") none
    (by decide) rfl (by decide) (by decide) rfl (by decide) (by decide)

/-- **C3**: a PUT whose payload carries only `score` (with an integer value in
[1,100]) rewrites each matching stored row to the same row with only `score`
replaced and, in the color-aware rich variant, `color` replaced by the color
recomputed from the new score; `text`, `date`, `iv`, `badge`, `user_id` and
`id` keep their prior values, and non-matching rows are untouched.  In the
basic variant only `score` changes. -/
theorem update_score_only_frame (u : String) (s : ℤ) (idRaw : JsNum)
    (db : DB) (db0 : DB0)
    (hs1 : 1 ≤ s) (hs2 : s ≤ 100) (hid : jsIsInteger idRaw = true) :
    ((updateHandler u idRaw ⟨some (.num (s : ℚ)), none, none, none, none, none⟩ db).2).rows
      = db.rows.map (fun e =>
          if e.id = jsToInt idRaw ∧ e.user_id = u then
            { e with score := s, color := some (scoreToColorJs (.num (s : ℚ))) }
          else e) ∧
    ((basicUpdate idRaw ⟨some (.num (s : ℚ)), none, none⟩ db0).2).rows
      = db0.rows.map (fun e =>
          if e.id = jsToInt idRaw then { e with score := s } else e) := by
  have hq1 : ((s : ℚ)).den = 1 := Rat.den_intCast s
  have hq2 : (1 : ℚ) ≤ (s : ℚ) := by exact_mod_cast hs1
  have hq3 : ((s : ℚ)) ≤ 100 := by exact_mod_cast hs2
  have hqn : ((s : ℚ)).num = s := Rat.num_intCast s
  constructor
  · have heff : effUpdateBody ⟨some (.num (s : ℚ)), none, none, none, none, none⟩
        = ⟨some (.num (s : ℚ)), none, none, none,
           some (scoreToColorJs (.num (s : ℚ))), none⟩ := by
      simp [effUpdateBody]
    have hv : validateUpdateFields
        (UpdateBody.score ⟨some (.num (s : ℚ)), none, none, none, none, none⟩)
        (effUpdateBody ⟨some (.num (s : ℚ)), none, none, none, none, none⟩)
        = .ok ⟨some s, none, none, none, none, some (scoreToColorJs (.num (s : ℚ)))⟩ := by
      rw [heff]
      simp [validateUpdateFields, validateUpdateFields.validateUpdateRest,
        hq1, hq2, hq3, hqn]
    rw [updateHandler, if_neg (by simp [hid]), hv]
    dsimp only
    rw [heff, if_neg (show ¬ updateFieldsEmpty
        (⟨some (.num (s : ℚ)), none, none, none,
          some (scoreToColorJs (.num (s : ℚ))), none⟩ : UpdateBody) by
      simp [updateFieldsEmpty])]
    dsimp only
    refine List.map_congr_left (fun e he => ?_)
    by_cases hcond : e.id = jsToInt idRaw ∧ e.user_id = u
    · rw [if_pos hcond, if_pos hcond]
      simp [applyPatch]
    · rw [if_neg hcond, if_neg hcond]
  · have hv1 : validateUpdateFields1 ⟨some (.num (s : ℚ)), none, none⟩
        = .ok (some s, none, none) := by
      simp [validateUpdateFields1, validateUpdateFields1.validateRest1,
        hq1, hq2, hq3, hqn]
    rw [basicUpdate, if_neg (by simp [hid]), hv1]
    dsimp only
    rw [if_neg (by simp)]
    dsimp only
    refine List.map_congr_left (fun e he => ?_)
    by_cases hcond : e.id = jsToInt idRaw
    · rw [if_pos hcond, if_pos hcond]
      simp [applyPatch0]
    · rw [if_neg hcond, if_neg hcond]

/-- Witness for C3: updating only the score of a concrete stored row. -/
theorem update_score_only_frame_witness :
    ((updateHandler "u" (.num 1) ⟨some (.num ((10 : ℤ) : ℚ)), none, none, none, none, none⟩
        ⟨[⟨1, "u", "2024-01-01", 50, "day", some "iv0", some "b0", some "c0"⟩], 2⟩).2).rows
      = [⟨1, "u", "2024-01-01", 50, "day", some "iv0", some "b0", some "c0"⟩].map (fun e =>
          if e.id = jsToInt (.num 1) ∧ e.user_id = "u" then
            { e with score := (10 : ℤ),
                     color := some (scoreToColorJs (.num ((10 : ℤ) : ℚ))) }
          else e) ∧
    ((basicUpdate (.num 1) ⟨some (.num ((10 : ℤ) : ℚ)), none, none⟩
        ⟨[⟨1, "2024-01-01", 50, "day"⟩], 2⟩).2).rows
      = [⟨1, "2024-01-01", 50, "day"⟩].map (fun e =>
          if e.id = jsToInt (.num 1) then { e with score := (10 : ℤ) } else e) :=
  update_score_only_frame "u" 10 (.num 1)
    ⟨[⟨1, "u", "2024-01-01", 50, "day", some "iv0", some "b0", some "c0"⟩], 2⟩
    ⟨[⟨1, "2024-01-01", 50, "day"⟩], 2⟩
    (by decide) (by decide) (by decide)

/-- Counterexample to C4 as stated: a PUT with an empty payload and a
non-integer id (`Number("abc")` is NaN) fails with 400 `"Invalid id"` — the
id check precedes the empty-field check — not with
400 `"No fields to update"` as the claim asserts for every id. -/
theorem update_empty_invalid_id_counterexample :
    updateHandler "u" .nan ⟨none, none, none, none, none, none⟩ ⟨[], 1⟩
      = (.badReq "Invalid id", ⟨[], 1⟩) ∧
    (Resp.badReq "Invalid id" : Resp Entry) ≠ .badReq "No fields to update" :=
  ⟨rfl, by decide⟩

/-- **C4** (amended): a PUT whose payload contains none of the updatable
fields always fails with HTTP 400 and leaves the store unchanged, in the rich
and the basic variant alike; the error message is `"No fields to update"`
when the id path parameter is an integer, and `"Invalid id"` otherwise
(the id check runs first). -/
theorem update_empty_fields_rejected (u : String) (idRaw : JsNum)
    (db : DB) (db0 : DB0) :
    (updateHandler u idRaw ⟨none, none, none, none, none, none⟩ db).2 = db ∧
    ((updateHandler u idRaw ⟨none, none, none, none, none, none⟩ db).1).status = 400 ∧
    (jsIsInteger idRaw = true →
      (updateHandler u idRaw ⟨none, none, none, none, none, none⟩ db).1
        = .badReq "No fields to update") ∧
    (jsIsInteger idRaw = false →
      (updateHandler u idRaw ⟨none, none, none, none, none, none⟩ db).1
        = .badReq "Invalid id") ∧
    (basicUpdate idRaw ⟨none, none, none⟩ db0).2 = db0 ∧
    ((basicUpdate idRaw ⟨none, none, none⟩ db0).1).status = 400 ∧
    (jsIsInteger idRaw = true →
      (basicUpdate idRaw ⟨none, none, none⟩ db0).1 = .badReq "No fields to update") ∧
    (jsIsInteger idRaw = false →
      (basicUpdate idRaw ⟨none, none, none⟩ db0).1 = .badReq "Invalid id") := by
  cases hid : jsIsInteger idRaw with
  | true =>
      have h1 : updateHandler u idRaw ⟨none, none, none, none, none, none⟩ db
          = (.badReq "No fields to update", db) := by
        rw [updateHandler, if_neg (by simp [hid])]
        rfl
      have h2 : basicUpdate idRaw ⟨none, none, none⟩ db0
          = (.badReq "No fields to update", db0) := by
        rw [basicUpdate, if_neg (by simp [hid])]
        rfl
      rw [h1, h2]
      refine ⟨rfl, rfl, fun _ => rfl, fun hc => ?_, rfl, rfl, fun _ => rfl, fun hc => ?_⟩
      · simp at hc
      · simp at hc
  | false =>
      have h1 : updateHandler u idRaw ⟨none, none, none, none, none, none⟩ db
          = (.badReq "Invalid id", db) := by
        rw [updateHandler, if_pos (by simp [hid])]
      have h2 : basicUpdate idRaw ⟨none, none, none⟩ db0
          = (.badReq "Invalid id", db0) := by
        rw [basicUpdate, if_pos (by simp [hid])]
      rw [h1, h2]
      refine ⟨rfl, rfl, fun hc => ?_, fun _ => rfl, rfl, rfl, fun hc => ?_, fun _ => rfl⟩
      · simp at hc
      · simp at hc

/-- Witness for C4 (amended): an empty PUT payload against a concrete store,
with a valid and an invalid id. -/
theorem update_empty_fields_rejected_witness :
    (updateHandler "u" (.num 7) ⟨none, none, none, none, none, none⟩ ⟨[], 1⟩).1
      = .badReq "No fields to update" ∧
    (updateHandler "u" .nan ⟨none, none, none, none, none, none⟩ ⟨[], 1⟩).1
      = .badReq "Invalid id" ∧
    (basicUpdate (.num 7) ⟨none, none, none⟩ ⟨[], 1⟩).1 = .badReq "No fields to update" :=
  ⟨(update_empty_fields_rejected "u" (.num 7) ⟨[], 1⟩ ⟨[], 1⟩).2.2.1 (by decide),
   (update_empty_fields_rejected "u" .nan ⟨[], 1⟩ ⟨[], 1⟩).2.2.2.1 (by decide),
   (update_empty_fields_rejected "u" (.num 7) ⟨[], 1⟩ ⟨[], 1⟩).2.2.2.2.2.2.1 (by decide)⟩

/-- Counterexample to C2 as stated: a create payload whose score coerces to
the valid integer 50 but whose text is 1001 characters long fails with a 400
validation error instead of succeeding, so a valid score alone does not make
create succeed. -/
theorem create_valid_score_bad_text_counterexample :
    scoreValid (.num 50) = true ∧
    createHandler "u" "2024-01-01"
        ⟨.num 50, some (String.mk (List.replicate 1001 'a')), none, none, none, none⟩
        ⟨[], 1⟩
      = (.badReq "text: invalid", ⟨[], 1⟩) := by
  constructor
  · decide
  · have hlen : (String.mk (List.replicate 1001 'a')).length = 1001 := by
      show (List.replicate 1001 'a').length = 1001
      rw [List.length_replicate]
    have hparse : entrySchemaParse
        ⟨.num 50, some (String.mk (List.replicate 1001 'a')), none, none, none, none⟩
        = .error "text: invalid" := by
      rw [entrySchemaParse]
      dsimp only
      rw [if_neg (not_not_intro (by decide))]
      rw [if_pos (show ¬ ((some (String.mk (List.replicate 1001 'a'))).getD "").length ≤ 1000 by
        show ¬ (String.mk (List.replicate 1001 'a')).length ≤ 1000
        rw [hlen]
        norm_num)]
    rw [createHandler, hparse]

/-- **C2** (amended): create fails with a 400 validation error and an
unchanged store whenever the coerced score is NaN, non-integer or outside
[1,100]; and when the score coerces to an integer in [1,100] **and the
remaining fields pass validation** (text ≤ 1000 chars when present, iv ≤ 32,
badge ≤ 50, date in ISO format when present), create succeeds with a 200
whose row carries the store-assigned id, the identity and the coerced score,
appended to the store. -/
theorem create_score_validation (u today : String) (b : CreateBody) (db : DB) :
    (scoreValid b.score = false →
      ∃ m, createHandler u today b db = (.badReq m, db)) ∧
    (scoreValid b.score = true →
      (b.text.getD "").length ≤ 1000 →
      (∀ s ∈ b.iv, s.length ≤ 32) →
      (∀ s ∈ b.badge, s.length ≤ 50) →
      (∀ s ∈ b.date, isoDateOk s = true) →
      ∃ row db2, createHandler u today b db = (.ok row, db2) ∧
        db2.rows = db.rows ++ [row] ∧ db2.nextId = db.nextId + 1 ∧
        row.id = db.nextId ∧ row.user_id = u ∧ row.score = jsToInt b.score) := by
  constructor
  · intro hf
    have herr : ∃ m, entrySchemaParse b = .error m := by
      rw [entrySchemaParse]
      cases hb : b.score with
      | nan => exact ⟨_, rfl⟩
      | num q =>
          rw [hb] at hf
          have hprop : ¬ (q.den = 1 ∧ 1 ≤ q ∧ q ≤ 100) := by
            intro hc
            simp [scoreValid, hc.1, hc.2.1, hc.2.2] at hf
          dsimp only
          rw [if_pos hprop]
          exact ⟨_, rfl⟩
    obtain ⟨m, hm⟩ := herr
    rw [createHandler, hm]
    exact ⟨m, rfl⟩
  · intro ht htext hiv hbadge hdate
    cases hb : b.score with
    | nan => rw [hb] at ht; simp [scoreValid] at ht
    | num q =>
        rw [hb] at ht
        have hcond : q.den = 1 ∧ 1 ≤ q ∧ q ≤ 100 := by
          simpa [scoreValid, and_assoc] using ht
        have hparse : entrySchemaParse b
            = .ok ⟨q.num, b.text.getD "", b.iv, b.badge, b.color, b.date⟩ := by
          rw [entrySchemaParse, hb]
          dsimp only
          rw [if_neg (not_not_intro hcond)]
          rw [if_neg (not_not_intro htext)]
          rw [if_neg (not_not_intro hiv)]
          rw [if_neg (not_not_intro hbadge)]
          rw [if_neg (not_not_intro hdate)]
        refine ⟨{ id := db.nextId, user_id := u,
                  date := (jsOrStr b.date (some today)).getD today,
                  score := q.num, text := b.text.getD "",
                  iv := jsOrStr b.iv none, badge := jsOrStr b.badge none,
                  color := some ((jsOrStr b.color
                    (some (scoreToColorJs (.num (q.num : ℚ))))).getD "") },
                { rows := db.rows ++
                    [{ id := db.nextId, user_id := u,
                       date := (jsOrStr b.date (some today)).getD today,
                       score := q.num, text := b.text.getD "",
                       iv := jsOrStr b.iv none, badge := jsOrStr b.badge none,
                       color := some ((jsOrStr b.color
                         (some (scoreToColorJs (.num (q.num : ℚ))))).getD "") }],
                  nextId := db.nextId + 1 }, ?_, rfl, rfl, rfl, rfl, ?_⟩
        · rw [createHandler, hparse]
        · rfl

/-- Witness for C2 (amended): the spec's example create, score 80 and text
"good day", against an empty store. -/
theorem create_score_validation_witness :
    ∃ row db2,
      createHandler "u" "2024-03-15"
          ⟨.num 80, some "good day", none, none, none, none⟩ ⟨[], 1⟩
        = (.ok row, db2) ∧
      db2.rows = (⟨[], 1⟩ : DB).rows ++ [row] ∧
      db2.nextId = (⟨[], 1⟩ : DB).nextId + 1 ∧
      row.id = (⟨[], 1⟩ : DB).nextId ∧ row.user_id = "u" ∧
      row.score = jsToInt (.num 80) :=
  (create_score_validation "u" "2024-03-15"
      ⟨.num 80, some "good day", none, none, none, none⟩ ⟨[], 1⟩).2
    (by decide) (by decide) (by decide) (by decide) (by decide)

/-- Counterexample to C5 as stated: in the first multi-tenant variant a
request with no Authorization header fails — but through the generic error
handler with HTTP **400**, not 401 as the claim asserts for every
auth-enabled variant (the store is still untouched). -/
theorem v1_auth_status_counterexample :
    v1Create (fun _ => none) none "2024-01-01" ⟨.num 50, none, none⟩ ⟨[], 1⟩
      = (.badReq "Missing token", ⟨[], 1⟩) ∧
    (Resp.badReq "Missing token" : Resp Entry1).status = 400 ∧
    (Resp.badReq "Missing token" : Resp Entry1).status ≠ 401 :=
  ⟨rfl, rfl, by decide⟩

/-- **C5** (amended): whenever the bearer credential fails to resolve —
missing header, malformed header (no or empty token component), or a token
the identity service rejects — no entry operation touches the store in either
auth-enabled variant: in the rich variant every endpoint returns the 401 auth
error and the unchanged store, while in the first multi-tenant variant every
endpoint returns the auth error with HTTP 400 (its thrown auth errors reach
the generic error handler) and the unchanged store.  In particular the rich
middleware's falsy-token check 401s a header whose second space-separated
component is empty before the identity service is consulted: it rejects for
every resolver, even one accepting every token. -/
theorem auth_failure_rejected (resolve : String → Option String)
    (hdr : Option String) (m m1 today : String) (b : CreateBody)
    (b1 : CreateBody1) (fromD toD : Option String) (limit : Option JsNum)
    (idRaw : JsNum) (ub : UpdateBody) (ub1 : UpdateBody1) (did : ℤ)
    (db : DB) (db1 : DB1) :
    (authenticate resolve hdr = .error m →
      createEndpoint resolve hdr today b db = (.unauth m, db) ∧
      listEndpoint resolve hdr fromD toD limit db = (.unauth m, db) ∧
      statsEndpoint resolve hdr db = (.unauth m, db) ∧
      updateEndpoint resolve hdr idRaw ub db = (.unauth m, db) ∧
      deleteEndpoint resolve hdr did db = (.unauth m, db) ∧
      (Resp.unauth m : Resp Entry).status = 401) ∧
    (getUserIdFromToken resolve hdr = .error m1 →
      v1Create resolve hdr today b1 db1 = (.badReq m1, db1) ∧
      v1List resolve hdr fromD toD limit db1 = (.badReq m1, db1) ∧
      v1Stats resolve hdr db1 = (.badReq m1, db1) ∧
      v1Update resolve hdr idRaw ub1 db1 = (.badReq m1, db1) ∧
      v1Delete resolve hdr did db1 = (.badReq m1, db1) ∧
      (Resp.badReq m1 : Resp Entry1).status = 400) ∧
    (∀ h rest, hdr = some h → h ≠ "" →
      (h.splitOn " ").drop 1 = "" :: rest →
      authenticate resolve hdr = .error "Token fehlt") := by
  refine ⟨?_, ?_, ?_⟩
  · intro hauth
    refine ⟨?_, ?_, ?_, ?_, ?_, rfl⟩
    · rw [createEndpoint, hauth]
    · rw [listEndpoint, hauth]
    · rw [statsEndpoint, hauth]
    · rw [updateEndpoint, hauth]
    · rw [deleteEndpoint, hauth]
  · intro hauth1
    refine ⟨?_, ?_, ?_, ?_, ?_, rfl⟩
    · rw [v1Create, hauth1]
    · rw [v1List, hauth1]
    · rw [v1Stats, hauth1]
    · rw [v1Update, hauth1]
    · rw [v1Delete, hauth1]
  · intro h rest hh hne0 hsplit
    rw [hh, authenticate, if_neg hne0, hsplit]
    rfl

/-- Witness for C5 (amended): a request with no Authorization header fails
closed across all five endpoints of both variants. -/
theorem auth_failure_rejected_witness :
    (createEndpoint (fun _ => none) none "2024-01-01"
        ⟨.num 50, none, none, none, none, none⟩ ⟨[], 1⟩
      = (.unauth "Authorization Header fehlt", ⟨[], 1⟩) ∧
    listEndpoint (fun _ => none) none none none none ⟨[], 1⟩
      = (.unauth "Authorization Header fehlt", ⟨[], 1⟩) ∧
    statsEndpoint (fun _ => none) none ⟨[], 1⟩
      = (.unauth "Authorization Header fehlt", ⟨[], 1⟩) ∧
    updateEndpoint (fun _ => none) none (.num 1)
        ⟨none, none, none, none, none, none⟩ ⟨[], 1⟩
      = (.unauth "Authorization Header fehlt", ⟨[], 1⟩) ∧
    deleteEndpoint (fun _ => none) none 1 ⟨[], 1⟩
      = (.unauth "Authorization Header fehlt", ⟨[], 1⟩) ∧
    (Resp.unauth "Authorization Header fehlt" : Resp Entry).status = 401) ∧
    (v1Create (fun _ => none) none "2024-01-01" ⟨.num 50, none, none⟩ ⟨[], 1⟩
      = (.badReq "Missing token", ⟨[], 1⟩) ∧
    v1List (fun _ => none) none none none none ⟨[], 1⟩
      = (.badReq "Missing token", ⟨[], 1⟩) ∧
    v1Stats (fun _ => none) none ⟨[], 1⟩ = (.badReq "Missing token", ⟨[], 1⟩) ∧
    v1Update (fun _ => none) none (.num 1) ⟨none, none, none⟩ ⟨[], 1⟩
      = (.badReq "Missing token", ⟨[], 1⟩) ∧
    v1Delete (fun _ => none) none 1 ⟨[], 1⟩ = (.badReq "Missing token", ⟨[], 1⟩) ∧
    (Resp.badReq "Missing token" : Resp Entry1).status = 400) :=
  ⟨(auth_failure_rejected (fun _ => none) none "Authorization Header fehlt"
      "Missing token" "2024-01-01" ⟨.num 50, none, none, none, none, none⟩
      ⟨.num 50, none, none⟩ none none none (.num 1)
      ⟨none, none, none, none, none, none⟩ ⟨none, none, none⟩ 1 ⟨[], 1⟩
      ⟨[], 1⟩).1 rfl,
   (auth_failure_rejected (fun _ => none) none "Authorization Header fehlt"
      "Missing token" "2024-01-01" ⟨.num 50, none, none, none, none, none⟩
      ⟨.num 50, none, none⟩ none none none (.num 1)
      ⟨none, none, none, none, none, none⟩ ⟨none, none, none⟩ 1 ⟨[], 1⟩
      ⟨[], 1⟩).2.1 rfl⟩

/-- The UPDATE either leaves the table unchanged (one of the error paths ran)
or rewrites it row by row, touching only rows that match both the id and the
requesting identity. -/
theorem updateHandler_rows (u : String) (i : JsNum) (b : UpdateBody) (db : DB) :
    ((updateHandler u i b db).2).rows = db.rows ∨
    ∃ p : Patch, ((updateHandler u i b db).2).rows
      = db.rows.map (fun e =>
          if e.id = jsToInt i ∧ e.user_id = u then applyPatch p e else e) := by
  rw [updateHandler]
  split
  · exact Or.inl rfl
  · split
    · exact Or.inl rfl
    · split
      · exact Or.inl rfl
      · exact Or.inr ⟨_, rfl⟩

/-- **C1**: multi-tenant isolation in the rich (authenticated) variant: for
distinct identities A and B and a stored entry of A, the entry is absent from
every list result B obtains, removing it from the table does not change the
stats B obtains (it contributes nothing to B's aggregates), and an update or
delete issued under B — with any id, in particular the entry's own — leaves
the entry's stored row present and unchanged. -/
theorem tenant_isolation (A B : String) (e : Entry) (l1 l2 : List Entry)
    (n0 : ℤ) (fromD toD : Option String) (limit : Option JsNum)
    (idRaw : JsNum) (ub : UpdateBody) (did : ℤ)
    (hAB : A ≠ B) (hA : e.user_id = A) :
    e ∉ okRows ((listHandler B fromD toD limit ⟨l1 ++ e :: l2, n0⟩).1) ∧
    (statsHandler B ⟨l1 ++ e :: l2, n0⟩).1 = (statsHandler B ⟨l1 ++ l2, n0⟩).1 ∧
    (∃ m1 m2, ((updateHandler B idRaw ub ⟨l1 ++ e :: l2, n0⟩).2).rows
      = m1 ++ e :: m2) ∧
    (∃ m1 m2, ((deleteHandler B did ⟨l1 ++ e :: l2, n0⟩).2).rows
      = m1 ++ e :: m2) := by
  have hne : ¬ (e.user_id = B) := by rw [hA]; exact hAB
  refine ⟨?_, ?_, ?_, ?_⟩
  · intro hmem
    rw [listHandler] at hmem
    split at hmem
    · simp [okRows] at hmem
    · split at hmem
      · simp [okRows] at hmem
      · simp only [okRows] at hmem
        have h1 : e ∈ sortEntries ((l1 ++ e :: l2).filter
            (listPred B (jsOrStr fromD none) (jsOrStr toD none))) :=
          List.mem_of_mem_take hmem
        have h2 := mem_sortEntries.mp h1
        have h3 := List.of_mem_filter h2
        simp [listPred, hne] at h3
  · have hfil : List.filter (fun x => decide (x.user_id = B)) (l1 ++ e :: l2)
        = List.filter (fun x => decide (x.user_id = B)) (l1 ++ l2) := by
      simp [List.filter_append, List.filter_cons, hne]
    rw [statsHandler, statsHandler]
    dsimp only
    rw [hfil]
  · rcases updateHandler_rows B idRaw ub ⟨l1 ++ e :: l2, n0⟩ with h | ⟨p, h⟩
    · exact ⟨l1, l2, h⟩
    · refine ⟨l1.map (fun x =>
          if x.id = jsToInt idRaw ∧ x.user_id = B then applyPatch p x else x),
        l2.map (fun x =>
          if x.id = jsToInt idRaw ∧ x.user_id = B then applyPatch p x else x), ?_⟩
      rw [h]
      show (l1 ++ e :: l2).map _ = _
      rw [List.map_append, List.map_cons, if_neg (fun hc => hne hc.2)]
  · refine ⟨l1.filter (fun x => ¬ (x.id = did ∧ x.user_id = B)),
      l2.filter (fun x => ¬ (x.id = did ∧ x.user_id = B)), ?_⟩
    show (l1 ++ e :: l2).filter (fun x => ¬ (x.id = did ∧ x.user_id = B)) = _
    rw [List.filter_append, List.filter_cons, if_pos (by simp [hne])]

/-- Witness for C1: identities "a" and "b" with a single stored entry of "a". -/
theorem tenant_isolation_witness :
    (⟨1, "a", "2024-01-01", 10, "x", none, none, none⟩ : Entry)
      ∉ okRows ((listHandler "b" none none none
          ⟨[] ++ ⟨1, "a", "2024-01-01", 10, "x", none, none, none⟩ :: [], 2⟩).1) ∧
    (statsHandler "b"
        ⟨[] ++ ⟨1, "a", "2024-01-01", 10, "x", none, none, none⟩ :: [], 2⟩).1
      = (statsHandler "b" ⟨[] ++ [], 2⟩).1 ∧
    (∃ m1 m2, ((updateHandler "b" (.num 1) ⟨none, some "t", none, none, none, none⟩
        ⟨[] ++ ⟨1, "a", "2024-01-01", 10, "x", none, none, none⟩ :: [], 2⟩).2).rows
      = m1 ++ ⟨1, "a", "2024-01-01", 10, "x", none, none, none⟩ :: m2) ∧
    (∃ m1 m2, ((deleteHandler "b" 1
        ⟨[] ++ ⟨1, "a", "2024-01-01", 10, "x", none, none, none⟩ :: [], 2⟩).2).rows
      = m1 ++ ⟨1, "a", "2024-01-01", 10, "x", none, none, none⟩ :: m2) :=
  tenant_isolation "a" "b" ⟨1, "a", "2024-01-01", 10, "x", none, none, none⟩
    [] [] 2 none none none (.num 1) ⟨none, some "t", none, none, none, none⟩ 1
    (by decide) rfl

end DayRater
